import Mathlib

/-!
Shallow embedding of the QML CSV logger component (`src/CSVLogger.cpp`).

The component is a small state machine: configuration fields (`filename`,
`header`, `logTime`, `logMillis`, `toConsole`, `precision`), session flags
(`fileNeedsReopen`, `writing`), a lazily opened append-mode file, and pure
line formatting.  We model:

* machine state as a record `LoggerState`;
* the file system as an association list from path to the list of lines
  already in the file (append mode means new lines go at the end; the file
  position after opening is zero exactly when the stored line list is empty);
* the wall clock as an explicit `DateTime` argument supplied by the
  environment of each `log` call;
* `QVariant` values as a sum of doubles (modelled as rationals) and text;
* diagnostics (`qDebug`/`qWarning`/`qCritical`) and Qt change signals as
  explicit output lists of each operation.

Every operation is a pure function from the old state (and an environment)
to a result record, translated clause by clause from the C++ source.
-/

namespace CSVLogger

/-- A wall-clock instant, as the fields Qt would format. -/
structure DateTime where
  year : Nat
  month : Nat
  day : Nat
  hour : Nat
  minute : Nat
  second : Nat
  millis : Nat
deriving DecidableEq, Repr

/-- The low `p` decimal digits of `n`, least significant first. -/
def fixedDigitsAux : Nat → Nat → List Char
  | 0, _ => []
  | p + 1, n => Nat.digitChar (n % 10) :: fixedDigitsAux p (n / 10)

/-- Rendering of `n` as exactly `p` decimal digits (zero padded, truncated mod `10^p`). -/
def fixedDigits (p n : Nat) : String :=
  String.mk (fixedDigitsAux p n).reverse

/-- Two-digit zero-padded field, as Qt format `MM`, `dd`, `HH`, `mm`, `ss`. -/
def pad2 (n : Nat) : String := fixedDigits 2 n

/-- Three-digit zero-padded field, as Qt format `zzz`. -/
def pad3 (n : Nat) : String := fixedDigits 3 n

/-- Four-digit zero-padded field, as Qt format `yyyy`. -/
def pad4 (n : Nat) : String := fixedDigits 4 n

/-- Model of `QDateTime::toString` with pattern `yyyy-MM-dd HH:mm:ss` and, when
`withMillis`, suffix `.zzz` (source lines 70 and 72). -/
def formatDateTime (dt : DateTime) (withMillis : Bool) : String :=
  pad4 dt.year ++ "-" ++ pad2 dt.month ++ "-" ++ pad2 dt.day ++ " " ++
    pad2 dt.hour ++ ":" ++ pad2 dt.minute ++ ":" ++ pad2 dt.second ++
    (if withMillis then "." ++ pad3 dt.millis else "")

/-- Model of `QString::number(x, 'f', p)`: fixed-point rendering of `x` with exactly
`p` fractional digits, rounding half away from zero on the magnitude. -/
def formatFixed (q : ℚ) (p : Nat) : String :=
  let scaled : Nat := (q.num.natAbs * 10 ^ p * 2 + q.den) / (2 * q.den)
  let sign := if q.num < 0 then "-" else ""
  if p = 0 then sign ++ toString scaled
  else sign ++ toString (scaled / 10 ^ p) ++ "." ++ fixedDigits p (scaled % 10 ^ p)

/-- A `QVariant` as far as `buildLogLine` distinguishes them: a value of type
`QVariant::Double`, or anything else via its `toString` text form. -/
inductive Value where
  | double (q : ℚ)
  | text (s : String)
deriving DecidableEq, Repr

/-- One datum of the row, as rendered at source line 82 / 86. -/
def renderValue (precision : Nat) : Value → String
  | Value.double q => formatFixed q precision
  | Value.text s => s

/-- A diagnostic message with its Qt severity class. -/
inductive Diag where
  | debug (msg : String)
  | warning (msg : String)
  | critical (msg : String)
deriving DecidableEq, Repr

/-- A Qt change-notification signal emitted by the component. -/
inductive Signal where
  | filenameChanged
  | logTimeChanged
  | headerChanged
deriving DecidableEq, Repr

/-- The member state of a `CSVLogger` object.  `fileOpen` models
`file.isOpen()`, and `openedFile` the name the open handle refers to. -/
structure LoggerState where
  logTime : Bool
  logMillis : Bool
  toConsole : Bool
  precision : Nat
  timestampHeader : String
  filename : String
  header : List String
  fileNeedsReopen : Bool
  writing : Bool
  fileOpen : Bool
  openedFile : String
deriving DecidableEq, Repr

/-- The state after the constructor (source lines 37-51): note that
`fileNeedsReopen` is initialized to `false`. -/
def initState : LoggerState :=
  { logTime := true
    logMillis := true
    toConsole := false
    precision := 2
    timestampHeader := "timestamp"
    filename := ""
    header := []
    fileNeedsReopen := false
    writing := false
    fileOpen := false
    openedFile := "" }

/-- Model of `CSVLogger::close()` (source lines 57-62): flush, close the handle, set
`fileNeedsReopen`, clear `writing`. -/
def close (s : LoggerState) : LoggerState :=
  { s with fileOpen := false, fileNeedsReopen := true, writing := false }

/-- Result of a property setter: the new state plus emitted diagnostics and
signals. -/
structure SetResult where
  state : LoggerState
  diags : List Diag
  signals : List Signal
deriving DecidableEq, Repr

/-- Model of `CSVLogger::setFilename` (source lines 106-118). -/
def setFilename (s : LoggerState) (filename : String) : SetResult :=
  if s.filename ≠ filename then
    { state := { s with fileOpen := false, filename := filename,
                        fileNeedsReopen := true, writing := false }
      diags := []
      signals := [Signal.filenameChanged] }
  else
    { state := s, diags := [], signals := [] }

/-- The critical text of source line 123. -/
def setLogTimeRejectMsg : String :=
  "CSVLogger::setLogTime(): logTime cannot be changed while writing."

/-- The critical text of source line 134. -/
def setHeaderRejectMsg : String :=
  "CSVLogger::setHeader(): header cannot be changed while writing."

/-- Model of `CSVLogger::setLogTime` (source lines 120-129). -/
def setLogTime (s : LoggerState) (logTime : Bool) : SetResult :=
  if s.logTime ≠ logTime then
    if s.writing then
      { state := s
        diags := [Diag.critical setLogTimeRejectMsg]
        signals := [] }
    else
      { state := { s with logTime := logTime }
        diags := []
        signals := [Signal.logTimeChanged] }
  else
    { state := s, diags := [], signals := [] }

/-- Model of `CSVLogger::setHeader` (source lines 131-140). -/
def setHeader (s : LoggerState) (header : List String) : SetResult :=
  if s.header ≠ header then
    if s.writing then
      { state := s
        diags := [Diag.critical setHeaderRejectMsg]
        signals := [] }
    else
      { state := { s with header := header }
        diags := []
        signals := [Signal.headerChanged] }
  else
    { state := s, diags := [], signals := [] }

/-- The warning text of source line 77 (paraphrased without contraction). -/
def lengthMismatchMsg : String :=
  "CSVLogger::buildLogLine(): Data and header do not have the same length, log file will not be correct."

/-- Model of `CSVLogger::buildLogLine` (source lines 64-90): the formatted line and
the diagnostics the call emits. -/
def buildLogLine (s : LoggerState) (now : DateTime) (data : List Value) :
    String × List Diag :=
  let line0 : String := if s.logTime then formatDateTime now s.logMillis else ""
  let warns : List Diag :=
    if data.length ≠ s.header.length then [Diag.warning lengthMismatchMsg] else []
  let line : String :=
    match data with
    | [] => line0
    | d :: rest =>
        rest.foldl (fun acc x => acc ++ ", " ++ renderValue s.precision x)
          ((if s.logTime then line0 ++ ", " else line0) ++ renderValue s.precision d)
  (line, warns)

/-- Model of `CSVLogger::buildHeaderString` (source lines 92-104). -/
def buildHeaderString (s : LoggerState) : String :=
  let h0 : String := if s.logTime then s.timestampHeader else ""
  match s.header with
  | [] => h0
  | c :: rest =>
      rest.foldl (fun acc x => acc ++ ", " ++ x)
        ((if s.logTime then h0 ++ ", " else h0) ++ c)

/-- The file system: each file is a path paired with the list of lines it
already holds. -/
abbrev FS : Type := List (String × List String)

/-- Content of the file at `p`, `none` when it does not exist. -/
def fsLookup : FS → String → Option (List String)
  | [], _ => none
  | (q, c) :: rest, p => if q = p then some c else fsLookup rest p

/-- Overwrite (or create) the file at `p` with content `c`. -/
def fsSet : FS → String → List String → FS
  | [], p, c => [(p, c)]
  | (q, d) :: rest, p, c =>
      if q = p then (p, c) :: rest else (q, d) :: fsSet rest p c

/-- Opening with `QIODevice::WriteOnly | QIODevice::Append` creates the file
if it is absent and leaves existing content alone. -/
def fsEnsure (fs : FS) (p : String) : FS :=
  match fsLookup fs p with
  | some _ => fs
  | none => fsSet fs p []

/-- Model of `writer << line << "\n"; writer.flush();` — append one line to the file. -/
def fsAppendLine (fs : FS) (p : String) (line : String) : FS :=
  fsSet fs p ((fsLookup fs p).getD [] ++ [line])

/-- Model of `QDir(filename).isAbsolute()` on the non-Windows branch of the source:
the path begins with the separator `/`. -/
def isAbsolutePath (p : String) : Bool :=
  match p.data with
  | [] => false
  | c :: _ => c = '/'

/-- Environment of a single `log` call: the external enabled flag, the wall
clock, `QStandardPaths::writableLocation` (the `DocumentsLocation` of the
non-Windows branch), and whether `QFile::open` succeeds on a given path. -/
structure Env where
  enabled : Bool
  now : DateTime
  writableLocation : String
  openOk : String → Bool

/-- Result of a `log` call: new state, new file system, diagnostics, lines
sent to the console sink, and emitted signals. -/
structure LogResult where
  state : LoggerState
  fs : FS
  diags : List Diag
  console : List String
  signals : List Signal
deriving DecidableEq, Repr

/-- The filename-resolution step of `CSVLogger::log` (source lines 152-166):
an absolute path is kept, a relative one is rewritten under the writable
location with a `filenameChanged` emission. -/
def resolveFilename (env : Env) (s : LoggerState) :
    LoggerState × List Diag × List Signal :=
  if isAbsolutePath s.filename then
    (s, [Diag.debug ("CSVLogger::log(): Opening " ++ s.filename ++ " to log.")], [])
  else
    let fn := env.writableLocation ++ "/" ++ s.filename
    ({ s with filename := fn },
     [Diag.debug ("CSVLogger::log(): Absolute path not given, opening " ++ fn ++ " to log.")],
     [Signal.filenameChanged])

/-- The critical text of source line 171 (the error string elided). -/
def openFailMsg : String := "CSVLogger::log(): Could not open file."

/-- The critical text of source line 193. -/
def notOpenMsg : String :=
  "CSVLogger::log(): File is not open, valid filename must be provided beforehand."

/-- Model of `CSVLogger::log` (source lines 142-194), translated branch by branch:
disabled no-op; console bypass; reopen (resolve path, open appending,
header when the position is zero) followed by the data write; plain data
write when the handle is open; critical diagnostic otherwise. -/
def log (env : Env) (s : LoggerState) (fs : FS) (data : List Value) : LogResult :=
  if env.enabled = false then
    { state := s, fs := fs, diags := [], console := [], signals := [] }
  else if s.toConsole then
    let bl := buildLogLine s env.now data
    { state := s, fs := fs, diags := bl.2 ++ [Diag.debug bl.1],
      console := [bl.1], signals := [] }
  else if s.fileNeedsReopen then
    let r := resolveFilename env s
    let s1 := r.1
    if env.openOk s1.filename then
      let fs1 := fsEnsure fs s1.filename
      let s2 := { s1 with fileNeedsReopen := false, writing := true,
                          fileOpen := true, openedFile := s1.filename }
      let fs2 :=
        if fsLookup fs1 s2.openedFile = some [] then
          fsAppendLine fs1 s2.openedFile (buildHeaderString s2)
        else fs1
      let bl := buildLogLine s2 env.now data
      { state := s2, fs := fsAppendLine fs2 s2.openedFile bl.1,
        diags := r.2.1 ++ bl.2, console := [], signals := r.2.2 }
    else
      { state := s1, fs := fs, diags := r.2.1 ++ [Diag.critical openFailMsg],
        console := [], signals := r.2.2 }
  else if s.fileOpen then
    let bl := buildLogLine s env.now data
    { state := s, fs := fsAppendLine fs s.openedFile bl.1, diags := bl.2,
      console := [], signals := [] }
  else
    { state := s, fs := fs, diags := [Diag.critical notOpenMsg],
      console := [], signals := [] }

/-- The absolute path a `log` call in reopen state will open, given the
writable location `wl`. -/
def resolvedName (wl : String) (s : LoggerState) : String :=
  if isAbsolutePath s.filename then s.filename
  else wl ++ "/" ++ s.filename

/-- The state right after a successful open inside `log`: filename resolved,
`fileNeedsReopen` cleared, `writing` set, handle open on the resolved path. -/
def openedState (wl : String) (s : LoggerState) : LoggerState :=
  { s with filename := resolvedName wl s, fileNeedsReopen := false,
           writing := true, fileOpen := true, openedFile := resolvedName wl s }

/-- Run a sequence of `log` calls, each with its own clock instant and row,
with a fixed enabled flag, writable location and open behaviour; collects
the final state and file system. -/
def runLogs (enabled : Bool) (wl : String) (openOk : String → Bool) :
    List (DateTime × List Value) → LoggerState → FS → LoggerState × FS
  | [], s, fs => (s, fs)
  | c :: rest, s, fs =>
      let r := log ⟨enabled, c.1, wl, openOk⟩ s fs c.2
      runLogs enabled wl openOk rest r.state r.fs

/-- The data lines a sequence of `log` calls produces under configuration
`s` (one formatted line per call, in call order). -/
def logLines (s : LoggerState) (calls : List (DateTime × List Value)) :
    List String :=
  calls.map fun c => (buildLogLine s c.1 c.2).1

/-- Append a list of lines to the file at `p`, one at a time. -/
def fsAppendAll (fs : FS) (p : String) (lines : List String) : FS :=
  lines.foldl (fun f l => fsAppendLine f p l) fs

/-- Reference rendering of comma-space separation, used to state the
formatting contract independently of the accumulator loop in the source. -/
def commaSpaceJoin : List String → String
  | [] => ""
  | [x] => x
  | x :: y :: rest => x ++ ", " ++ commaSpaceJoin (y :: rest)

/-- A sample clock instant, used to instantiate universally quantified
statements at concrete inputs. -/
def dt0 : DateTime := ⟨2026, 1, 1, 12, 30, 45, 500⟩

/-- A sample environment with every open succeeding. -/
def envOk : Env := ⟨true, dt0, "/docs", fun _ => true⟩

/-- A sample environment in which every open fails. -/
def envFail : Env := ⟨true, dt0, "/docs", fun _ => false⟩

/-- A sample state in which a row has already been written to the open file
(the state reached from `initState` by `setFilename "/tmp/a.csv"` followed by
one successful `log`). -/
def writingState : LoggerState :=
  { initState with
    filename := "/tmp/a.csv", header := ["a"],
    fileNeedsReopen := false, writing := true, fileOpen := true,
    openedFile := "/tmp/a.csv" }

/-! ### Basic lemmas about the file-system model -/

theorem fsLookup_fsSet_self (fs : FS) (p : String) (c : List String) :
    fsLookup (fsSet fs p c) p = some c := by
  induction fs with
  | nil => simp [fsSet, fsLookup]
  | cons hd tl ih =>
      obtain ⟨q, d⟩ := hd
      by_cases h : q = p
      · simp [fsSet, fsLookup, h]
      · simp [fsSet, fsLookup, h, ih]

theorem fsLookup_fsAppendLine_self (fs : FS) (p : String) (l : String) :
    fsLookup (fsAppendLine fs p l) p = some ((fsLookup fs p).getD [] ++ [l]) :=
  fsLookup_fsSet_self fs p _

theorem fsLookup_fsEnsure_self (fs : FS) (p : String) :
    fsLookup (fsEnsure fs p) p = some ((fsLookup fs p).getD []) := by
  unfold fsEnsure
  cases h : fsLookup fs p with
  | none => simp [fsLookup_fsSet_self]
  | some c => simp [h]

theorem fsEnsure_of_some {fs : FS} {p : String} {c : List String}
    (h : fsLookup fs p = some c) : fsEnsure fs p = fs := by
  simp [fsEnsure, h]

theorem fsAppendAll_lookup {fs : FS} {p : String} {xs : List String}
    (lines : List String) (h : fsLookup fs p = some xs) :
    fsLookup (fsAppendAll fs p lines) p = some (xs ++ lines) := by
  induction lines generalizing fs xs with
  | nil => simpa [fsAppendAll] using h
  | cons l rest ih =>
      have h1 : fsLookup (fsAppendLine fs p l) p = some (xs ++ [l]) := by
        rw [fsLookup_fsAppendLine_self, h]
        rfl
      have h2 := ih h1
      simpa [fsAppendAll, List.append_assoc] using h2

/-! ### Congruence of the line builders in the session flags -/

theorem buildLogLine_congr (s t : LoggerState) (now : DateTime) (data : List Value)
    (h1 : s.logTime = t.logTime) (h2 : s.logMillis = t.logMillis)
    (h3 : s.precision = t.precision) (h4 : s.header = t.header) :
    buildLogLine s now data = buildLogLine t now data := by
  simp only [buildLogLine, h1, h2, h3, h4]

theorem buildHeaderString_congr (s t : LoggerState)
    (h1 : s.logTime = t.logTime) (h2 : s.timestampHeader = t.timestampHeader)
    (h3 : s.header = t.header) :
    buildHeaderString s = buildHeaderString t := by
  simp only [buildHeaderString, h1, h2, h3]

/-! ### The branches of `log` -/

theorem log_steady (env : Env) (s : LoggerState) (fs : FS) (data : List Value)
    (he : env.enabled = true) (hc : s.toConsole = false)
    (hr : s.fileNeedsReopen = false) (ho : s.fileOpen = true) :
    log env s fs data =
      { state := s,
        fs := fsAppendLine fs s.openedFile (buildLogLine s env.now data).1,
        diags := (buildLogLine s env.now data).2,
        console := [], signals := [] } := by
  simp [log, he, hc, hr, ho]

theorem runLogs_steady (wl : String) (ok : String → Bool)
    (calls : List (DateTime × List Value)) (s : LoggerState) (fs : FS)
    (hc : s.toConsole = false) (hr : s.fileNeedsReopen = false)
    (ho : s.fileOpen = true) :
    runLogs true wl ok calls s fs = (s, fsAppendAll fs s.openedFile (logLines s calls)) := by
  induction calls generalizing fs with
  | nil => simp [runLogs, fsAppendAll, logLines]
  | cons c rest ih =>
      rw [runLogs]
      rw [log_steady ⟨true, c.1, wl, ok⟩ s fs c.2 rfl hc hr ho]
      rw [ih]
      simp [fsAppendAll, logLines]

theorem log_reopen_ok (env : Env) (s : LoggerState) (fs : FS) (data : List Value)
    (he : env.enabled = true) (hc : s.toConsole = false)
    (hr : s.fileNeedsReopen = true)
    (hok : env.openOk (resolvedName env.writableLocation s) = true) :
    log env s fs data =
      { state := openedState env.writableLocation s,
        fs := fsAppendLine
          (if fsLookup (fsEnsure fs (resolvedName env.writableLocation s))
                (resolvedName env.writableLocation s) = some [] then
            fsAppendLine (fsEnsure fs (resolvedName env.writableLocation s))
              (resolvedName env.writableLocation s)
              (buildHeaderString (openedState env.writableLocation s))
          else fsEnsure fs (resolvedName env.writableLocation s))
          (resolvedName env.writableLocation s)
          (buildLogLine (openedState env.writableLocation s) env.now data).1,
        diags := (resolveFilename env s).2.1 ++
          (buildLogLine (openedState env.writableLocation s) env.now data).2,
        console := [],
        signals := if isAbsolutePath s.filename then [] else [Signal.filenameChanged] } := by
  by_cases habs : isAbsolutePath s.filename = true
  · have hres : resolvedName env.writableLocation s = s.filename := by
      simp [resolvedName, habs]
    rw [hres] at hok
    simp [log, he, hc, hr, habs, resolveFilename, openedState, resolvedName, hok]
  · have habs' : isAbsolutePath s.filename = false := by
      simpa using habs
    have hres : resolvedName env.writableLocation s =
        env.writableLocation ++ "/" ++ s.filename := by
      simp [resolvedName, habs']
    rw [hres] at hok
    simp [log, he, hc, hr, habs', resolveFilename, openedState, resolvedName, hok]

/-- The function `buildHeaderString` does not read the fields `openedState` changes. -/
theorem buildHeaderString_openedState (wl : String) (s : LoggerState) :
    buildHeaderString (openedState wl s) = buildHeaderString s :=
  buildHeaderString_congr _ _ rfl rfl rfl

/-- The function `buildLogLine` does not read the fields `openedState` changes. -/
theorem buildLogLine_openedState (wl : String) (s : LoggerState)
    (now : DateTime) (data : List Value) :
    buildLogLine (openedState wl s) now data = buildLogLine s now data :=
  buildLogLine_congr _ _ now data rfl rfl rfl rfl

theorem log_reopen_fail (env : Env) (s : LoggerState) (fs : FS) (data : List Value)
    (he : env.enabled = true) (hc : s.toConsole = false)
    (hr : s.fileNeedsReopen = true)
    (hok : env.openOk (resolvedName env.writableLocation s) = false) :
    log env s fs data =
      { state := { s with filename := resolvedName env.writableLocation s },
        fs := fs,
        diags := (resolveFilename env s).2.1 ++ [Diag.critical openFailMsg],
        console := [],
        signals := if isAbsolutePath s.filename then [] else [Signal.filenameChanged] } := by
  obtain ⟨lt, lm, tc, pr, th, fn, hd, fr, wr, fo, op⟩ := s
  simp only at hc hr
  subst hc hr
  by_cases habs : isAbsolutePath fn = true
  · have hres : resolvedName env.writableLocation
        (LoggerState.mk lt lm false pr th fn hd true wr fo op) = fn := by
      simp [resolvedName, habs]
    rw [hres] at hok
    simp [log, he, habs, resolveFilename, resolvedName, hok]
  · have habs' : isAbsolutePath fn = false := by
      simpa using habs
    have hres : resolvedName env.writableLocation
        (LoggerState.mk lt lm false pr th fn hd true wr fo op) =
        env.writableLocation ++ "/" ++ fn := by
      simp [resolvedName, habs']
    rw [hres] at hok
    simp [log, he, habs', resolveFilename, resolvedName, hok]

/-! ### Formatting lemmas -/

theorem foldl_commaSpaceJoin {α : Type} (f : α → String) (rest : List α)
    (pre : String) (d : α) :
    rest.foldl (fun acc x => acc ++ ", " ++ f x) (pre ++ f d) =
      pre ++ commaSpaceJoin ((d :: rest).map f) := by
  induction rest generalizing pre d with
  | nil => simp [commaSpaceJoin]
  | cons y ys ih =>
      have h := ih (pre ++ (f d ++ ", ")) y
      simp only [List.foldl_cons, List.map_cons, commaSpaceJoin,
        String.append_assoc] at h ⊢
      exact h

theorem buildLogLine_fst (s : LoggerState) (now : DateTime) (data : List Value) :
    (buildLogLine s now data).1 =
      commaSpaceJoin ((if s.logTime then [formatDateTime now s.logMillis] else []) ++
        data.map (renderValue s.precision)) := by
  cases hlt : s.logTime with
  | false =>
      cases data with
      | nil => simp [buildLogLine, hlt, commaSpaceJoin]
      | cons d rest =>
          have h := foldl_commaSpaceJoin (renderValue s.precision) rest "" d
          simp only [buildLogLine, hlt, Bool.false_eq_true, if_false, ite_false,
            List.nil_append, List.map_cons] at *
          simpa using h
  | true =>
      cases data with
      | nil => simp [buildLogLine, hlt, commaSpaceJoin]
      | cons d rest =>
          have h := foldl_commaSpaceJoin (renderValue s.precision) rest
            (formatDateTime now s.logMillis ++ ", ") d
          simp only [buildLogLine, hlt, if_true, ite_true, List.singleton_append,
            List.map_cons, commaSpaceJoin, String.append_assoc] at *
          exact h

theorem fixedDigitsAux_length (p n : Nat) : (fixedDigitsAux p n).length = p := by
  induction p generalizing n with
  | zero => simp [fixedDigitsAux]
  | succ p ih => simp [fixedDigitsAux, ih]

theorem data_fixedDigits (p n : Nat) :
    (fixedDigits p n).data = (fixedDigitsAux p n).reverse := rfl

theorem fixedDigits_length (p n : Nat) : (fixedDigits p n).length = p := by
  simp [fixedDigits, String.length_mk, List.length_reverse, fixedDigitsAux_length]

theorem digitChar_isDigit {m : Nat} (h : m < 10) :
    (Nat.digitChar m).isDigit = true := by
  interval_cases m <;> decide

theorem mem_fixedDigitsAux_isDigit {c : Char} {p n : Nat}
    (h : c ∈ fixedDigitsAux p n) : c.isDigit = true := by
  induction p generalizing n with
  | zero => simp [fixedDigitsAux] at h
  | succ p ih =>
      simp only [fixedDigitsAux, List.mem_cons] at h
      rcases h with h | h
      · subst h
        exact digitChar_isDigit (Nat.mod_lt _ (by decide))
      · exact ih h

theorem mem_fixedDigits_isDigit {c : Char} {p n : Nat}
    (h : c ∈ (fixedDigits p n).data) : c.isDigit = true :=
  mem_fixedDigitsAux_isDigit
    (List.mem_reverse.mp (by simpa [data_fixedDigits] using h))

theorem formatDateTime_chars (dt : DateTime) :
    ∀ c ∈ (formatDateTime dt false).data,
      c.isDigit = true ∨ c = '-' ∨ c = ' ' ∨ c = ':' := by
  intro c hc
  simp only [formatDateTime, Bool.false_eq_true, if_false, ite_false,
    String.data_append, List.mem_append,
    show ("-" : String).data = ['-'] from rfl,
    show (" " : String).data = [' '] from rfl,
    show (":" : String).data = [':'] from rfl,
    show ("" : String).data = [] from rfl,
    List.mem_singleton, List.not_mem_nil, or_false, or_assoc] at hc
  rcases hc with hc | hc | hc | hc | hc | hc | hc | hc | hc | hc | hc <;>
    first
      | exact Or.inl (mem_fixedDigits_isDigit hc)
      | exact Or.inr (Or.inl hc)
      | exact Or.inr (Or.inr (Or.inl hc))
      | exact Or.inr (Or.inr (Or.inr hc))

theorem formatDateTime_no_dot (dt : DateTime) :
    '.' ∉ (formatDateTime dt false).data := by
  intro h
  rcases formatDateTime_chars dt '.' h with h1 | h1 | h1 | h1 <;> simp at h1

theorem formatDateTime_false_length (dt : DateTime) :
    (formatDateTime dt false).length = 19 := by
  simp only [formatDateTime, Bool.false_eq_true, if_false, ite_false,
    String.length_append, pad2, pad4, fixedDigits_length]
  decide

theorem formatDateTime_millis_suffix (dt : DateTime) :
    formatDateTime dt true = formatDateTime dt false ++ "." ++ pad3 dt.millis := by
  simp [formatDateTime, String.append_assoc]

theorem formatFixed_decomp (q : ℚ) (p : Nat) (hp : p ≠ 0) :
    ∃ ip fp : String, formatFixed q p = ip ++ "." ++ fp ∧ fp.length = p ∧
      ∀ c ∈ fp.data, c.isDigit = true := by
  refine ⟨(if q.num < 0 then "-" else "") ++
      toString (((q.num.natAbs * 10 ^ p * 2 + q.den) / (2 * q.den)) / 10 ^ p),
    fixedDigits p (((q.num.natAbs * 10 ^ p * 2 + q.den) / (2 * q.den)) % 10 ^ p),
    ?_, fixedDigits_length _ _, ?_⟩
  · simp [formatFixed, hp]
  · intro c hc
    exact mem_fixedDigitsAux_isDigit
      (List.mem_reverse.mp (by simpa [data_fixedDigits] using hc))

/-! ### Claim C1 -/

/-- C1, counterexample: after construction the session state is NOT
`NeedsReopen` (`fileNeedsReopen` is initialized to `false` at source line 46),
and the very first `log` call in file mode does not attempt any open: it
reports the file-not-open critical diagnostic and leaves the file system
untouched. -/
theorem c1_counterexample :
    initState.fileNeedsReopen ≠ true ∧
    (log envOk initState [] [Value.text "x"]).diags = [Diag.critical notOpenMsg] ∧
    (log envOk initState [] [Value.text "x"]).fs = [] := by
  refine ⟨by decide, by decide, by decide⟩

/-- C1, amended: after construction (before any `setFilename`, `log` or
`close`) the session state is not `NeedsReopen` and no file is open, so the
very first enabled `log` call in file mode does not attempt to resolve or
open anything: it reports a critical file-not-open diagnostic and changes no
state; the state becomes `NeedsReopen` only through `close` or a
`setFilename` to a different name. -/
theorem c1_amended_theorem (env : Env) (fs : FS) (data : List Value)
    (he : env.enabled = true) :
    initState.fileNeedsReopen = false ∧
    initState.fileOpen = false ∧
    log env initState fs data =
      { state := initState, fs := fs, diags := [Diag.critical notOpenMsg],
        console := [], signals := [] } ∧
    (close initState).fileNeedsReopen = true ∧
    (∀ fn : String, fn ≠ "" → (setFilename initState fn).state.fileNeedsReopen = true) := by
  refine ⟨rfl, rfl, ?_, rfl, ?_⟩
  · simp [log, he, initState]
  · intro fn hfn
    simp [setFilename, initState, Ne.symm hfn]

/-- C1, witness for the amended theorem at a concrete input. -/
theorem c1_amended_witness :
    initState.fileNeedsReopen = false ∧
    log envOk initState [] [Value.text "x"] =
      { state := initState, fs := [], diags := [Diag.critical notOpenMsg],
        console := [], signals := [] } ∧
    (setFilename initState "a.csv").state.fileNeedsReopen = true := by
  have h := c1_amended_theorem envOk [] [Value.text "x"] rfl
  exact ⟨h.1, h.2.2.1, h.2.2.2.2 "a.csv" (by decide)⟩

/-! ### Claim C3 -/

/-- C3, counterexample: in a state with `writing = true`, calling `setHeader`
(or `setLogTime`) with the currently stored value produces NO diagnostic at
all, refuting that every such call produces a critical-class diagnostic. -/
theorem c3_counterexample :
    writingState.writing = true ∧
    (setHeader writingState writingState.header).diags = [] ∧
    (setLogTime writingState writingState.logTime).diags = [] := by
  refine ⟨rfl, by decide, by decide⟩

/-- C3, amended: in every state with `writing = true`, every `setHeader` or
`setLogTime` call leaves the stored header and logTime unchanged (the whole
state, in fact) and emits no signal, and it produces the critical-class
diagnostic exactly when the proposed value differs from the stored one. -/
theorem c3_amended_theorem (s : LoggerState) (h : List String) (b : Bool)
    (hw : s.writing = true) :
    (setHeader s h).state = s ∧ (setLogTime s b).state = s ∧
    (setHeader s h).signals = [] ∧ (setLogTime s b).signals = [] ∧
    (h ≠ s.header → (setHeader s h).diags = [Diag.critical setHeaderRejectMsg]) ∧
    (b ≠ s.logTime → (setLogTime s b).diags = [Diag.critical setLogTimeRejectMsg]) := by
  refine ⟨?_, ?_, ?_, ?_, ?_, ?_⟩
  · by_cases hh : s.header = h
    · simp [setHeader, hh]
    · simp [setHeader, hh, hw]
  · by_cases hb : s.logTime = b
    · simp [setLogTime, hb]
    · simp [setLogTime, hb, hw]
  · by_cases hh : s.header = h
    · simp [setHeader, hh]
    · simp [setHeader, hh, hw]
  · by_cases hb : s.logTime = b
    · simp [setLogTime, hb]
    · simp [setLogTime, hb, hw]
  · intro hne
    simp [setHeader, Ne.symm hne, hw]
  · intro hne
    simp [setLogTime, Ne.symm hne, hw]

/-- C3, witness for the amended theorem at a concrete input. -/
theorem c3_amended_witness :
    (setHeader writingState ["b"]).state = writingState ∧
    (setLogTime writingState false).state = writingState ∧
    (setHeader writingState ["b"]).diags = [Diag.critical setHeaderRejectMsg] ∧
    (setLogTime writingState false).diags = [Diag.critical setLogTimeRejectMsg] := by
  have h := c3_amended_theorem writingState ["b"] false rfl
  exact ⟨h.1, h.2.1, h.2.2.2.2.1 (by decide), h.2.2.2.2.2 (by decide)⟩

/-! ### Claim C5 -/

/-- C5: with the component enabled and `toConsole = true`, a `log` call emits
exactly one formatted data line to the console sink and touches no file
state: the file system is unchanged, no file is created, and the state
(filename, session flags, `writing`) is returned unchanged; no signal is
emitted. -/
theorem c5_theorem (env : Env) (s : LoggerState) (fs : FS) (data : List Value)
    (he : env.enabled = true) (hc : s.toConsole = true) :
    log env s fs data =
      { state := s, fs := fs,
        diags := (buildLogLine s env.now data).2 ++
          [Diag.debug (buildLogLine s env.now data).1],
        console := [(buildLogLine s env.now data).1], signals := [] } := by
  simp [log, he, hc]

/-- C5, witness at a concrete input. -/
theorem c5_witness :
    log envOk { initState with toConsole := true } [] [Value.text "x"] =
      { state := { initState with toConsole := true }, fs := [],
        diags := [Diag.warning lengthMismatchMsg,
          Diag.debug "2026-01-01 12:30:45.500, x"],
        console := ["2026-01-01 12:30:45.500, x"], signals := [] } := by
  have h := c5_theorem envOk { initState with toConsole := true } []
    [Value.text "x"] rfl rfl
  exact h.trans (by decide)

/-! ### Claim C9 -/

/-- C9: calling `setHeader` or `setLogTime` with the currently stored value
is a complete no-op in every state (no diagnostic, no signal, unchanged
state), and a non-empty diagnostic list from either setter implies the
proposed value differed from the stored one. -/
theorem c9_theorem (s : LoggerState) (h : List String) (b : Bool) :
    setHeader s s.header = { state := s, diags := [], signals := [] } ∧
    setLogTime s s.logTime = { state := s, diags := [], signals := [] } ∧
    ((setHeader s h).diags ≠ [] → h ≠ s.header) ∧
    ((setLogTime s b).diags ≠ [] → b ≠ s.logTime) := by
  refine ⟨by simp [setHeader], by simp [setLogTime], ?_, ?_⟩
  · intro hd he
    exact hd (by subst he; simp [setHeader])
  · intro hd he
    exact hd (by subst he; simp [setLogTime])

/-- C9, witness at a concrete input (a state with `writing = true`). -/
theorem c9_witness :
    setHeader writingState writingState.header =
      { state := writingState, diags := [], signals := [] } ∧
    setLogTime writingState writingState.logTime =
      { state := writingState, diags := [], signals := [] } ∧
    (["x"] : List String) ≠ writingState.header := by
  have h := c9_theorem writingState ["x"] false
  exact ⟨h.1, h.2.1, h.2.2.1 (by decide)⟩

/-! ### Claim C4 -/

/-- C4: an enabled file-mode `log` call in `NeedsReopen` state whose open
fails reports a critical-class diagnostic, writes nothing (file system and
console unchanged), and leaves `fileNeedsReopen = true` and `writing = false`,
so the next `log` call retries the open. -/
theorem c4_theorem (env : Env) (s : LoggerState) (fs : FS) (data : List Value)
    (he : env.enabled = true) (hc : s.toConsole = false)
    (hr : s.fileNeedsReopen = true) (hw : s.writing = false)
    (hok : env.openOk (resolvedName env.writableLocation s) = false) :
    Diag.critical openFailMsg ∈ (log env s fs data).diags ∧
    (log env s fs data).fs = fs ∧
    (log env s fs data).console = [] ∧
    (log env s fs data).state.fileNeedsReopen = true ∧
    (log env s fs data).state.writing = false := by
  rw [log_reopen_fail env s fs data he hc hr hok]
  refine ⟨by simp, rfl, rfl, ?_, ?_⟩
  · simpa using hr
  · simpa using hw

/-- C4, witness at a concrete input. -/
theorem c4_witness :
    Diag.critical openFailMsg ∈
      (log envFail (setFilename initState "a.csv").state [] []).diags ∧
    (log envFail (setFilename initState "a.csv").state [] []).fs = [] ∧
    (log envFail (setFilename initState "a.csv").state [] []).state.fileNeedsReopen = true ∧
    (log envFail (setFilename initState "a.csv").state [] []).state.writing = false := by
  have h := c4_theorem envFail (setFilename initState "a.csv").state [] []
    rfl (by decide) (by decide) (by decide) (by decide)
  exact ⟨h.1, h.2.1, h.2.2.2.1, h.2.2.2.2⟩

/-! ### Claim C6 -/

/-- C6: `setFilename` with a name different from the current one closes the
handle, stores the new name, sets `NeedsReopen`, clears `writing`, and emits
the change notification; a subsequent enabled file-mode `log` call with a
succeeding open then opens the resolved new path and, when that file is
empty, writes the header line for `s` followed by the data line. -/
theorem c6_theorem (s : LoggerState) (fn : String) (hne : fn ≠ s.filename) :
    setFilename s fn =
      { state := { s with fileOpen := false, filename := fn,
                          fileNeedsReopen := true, writing := false },
        diags := [], signals := [Signal.filenameChanged] } ∧
    (∀ (env : Env) (fs : FS) (data : List Value),
      env.enabled = true → s.toConsole = false →
      env.openOk (resolvedName env.writableLocation (setFilename s fn).state) = true →
      (fsLookup fs (resolvedName env.writableLocation (setFilename s fn).state)).getD [] = [] →
      (log env (setFilename s fn).state fs data).state.fileOpen = true ∧
      (log env (setFilename s fn).state fs data).state.openedFile =
        resolvedName env.writableLocation (setFilename s fn).state ∧
      fsLookup (log env (setFilename s fn).state fs data).fs
          (resolvedName env.writableLocation (setFilename s fn).state) =
        some [buildHeaderString s, (buildLogLine s env.now data).1]) := by
  have ht : (setFilename s fn).state =
      { s with fileOpen := false, filename := fn,
               fileNeedsReopen := true, writing := false } := by
    simp [setFilename, Ne.symm hne]
  constructor
  · simp [setFilename, Ne.symm hne]
  · intro env fs data he hc hok hempty
    have hc' : (setFilename s fn).state.toConsole = false := by
      rw [ht]; simpa using hc
    have hr' : (setFilename s fn).state.fileNeedsReopen = true := by
      rw [ht]
    rw [log_reopen_ok env _ fs data he hc' hr' hok]
    refine ⟨rfl, rfl, ?_⟩
    have hp : fsLookup (fsEnsure fs
        (resolvedName env.writableLocation (setFilename s fn).state))
        (resolvedName env.writableLocation (setFilename s fn).state) = some [] := by
      rw [fsLookup_fsEnsure_self, hempty]
    have hbh : buildHeaderString (setFilename s fn).state = buildHeaderString s := by
      rw [ht]; exact buildHeaderString_congr _ _ rfl rfl rfl
    have hbl : buildLogLine (setFilename s fn).state env.now data =
        buildLogLine s env.now data := by
      rw [ht]; exact buildLogLine_congr _ _ env.now data rfl rfl rfl rfl
    simp [hp, fsLookup_fsAppendLine_self, buildHeaderString_openedState,
      buildLogLine_openedState, hbh, hbl]

/-- C6, witness at a concrete input. -/
theorem c6_witness :
    setFilename initState "/tmp/a.csv" =
      { state := { initState with fileOpen := false, filename := "/tmp/a.csv",
                                  fileNeedsReopen := true, writing := false },
        diags := [], signals := [Signal.filenameChanged] } ∧
    (log envOk (setFilename initState "/tmp/a.csv").state [] [Value.text "x"]).state.fileOpen
      = true ∧
    fsLookup (log envOk (setFilename initState "/tmp/a.csv").state [] [Value.text "x"]).fs
        "/tmp/a.csv" =
      some ["timestamp", "2026-01-01 12:30:45.500, x"] := by
  have h := c6_theorem initState "/tmp/a.csv" (by decide)
  have h2 := h.2 envOk [] [Value.text "x"] rfl rfl (by decide) (by decide)
  refine ⟨h.1, h2.1, ?_⟩
  have h3 := h2.2.2
  rw [show resolvedName envOk.writableLocation
      (setFilename initState "/tmp/a.csv").state = "/tmp/a.csv" from by decide] at h3
  exact h3.trans (by decide)

/-! ### Claim C10 -/

/-- Prefixing a base directory strictly lengthens a path, so the rewritten
filename always differs from the relative one the caller set. -/
theorem prepend_changes (wl fn : String) : wl ++ "/" ++ fn ≠ fn := by
  intro h
  have hlen := congrArg String.length h
  simp only [String.length_append] at hlen
  have h1 : ("/" : String).length = 1 := rfl
  rw [h1] at hlen
  omega

/-- C10: an enabled file-mode `log` call in `NeedsReopen` state with a
relative filename rewrites the stored filename to the resolved absolute path
and emits `filenameChanged` whether or not the open succeeds; the rewritten
name differs from the caller-set one, and when the open fails nothing is
written, `fileNeedsReopen` stays `true`, and `writing` is unchanged while the
rewritten filename is retained. -/
theorem c10_theorem (env : Env) (s : LoggerState) (fs : FS) (data : List Value)
    (he : env.enabled = true) (hc : s.toConsole = false)
    (hr : s.fileNeedsReopen = true) (hrel : isAbsolutePath s.filename = false) :
    (log env s fs data).state.filename = env.writableLocation ++ "/" ++ s.filename ∧
    Signal.filenameChanged ∈ (log env s fs data).signals ∧
    (log env s fs data).state.filename ≠ s.filename ∧
    (env.openOk (env.writableLocation ++ "/" ++ s.filename) = false →
      (log env s fs data).fs = fs ∧
      (log env s fs data).state.fileNeedsReopen = true ∧
      (log env s fs data).state.writing = s.writing ∧
      Diag.critical openFailMsg ∈ (log env s fs data).diags) := by
  have hres : resolvedName env.writableLocation s =
      env.writableLocation ++ "/" ++ s.filename := by
    simp [resolvedName, hrel]
  by_cases hok : env.openOk (env.writableLocation ++ "/" ++ s.filename) = true
  · rw [log_reopen_ok env s fs data he hc hr (by rw [hres]; exact hok)]
    refine ⟨by simp [openedState, hres], by simp [hrel], ?_, ?_⟩
    · simpa [openedState, hres] using prepend_changes env.writableLocation s.filename
    · intro hbad
      rw [hok] at hbad
      exact absurd hbad (by simp)
  · have hok' : env.openOk (resolvedName env.writableLocation s) = false := by
      rw [hres]
      simpa using hok
    rw [log_reopen_fail env s fs data he hc hr hok']
    refine ⟨by simp [hres], by simp [hrel], ?_, ?_⟩
    · simpa [hres] using prepend_changes env.writableLocation s.filename
    · intro _
      refine ⟨rfl, by simpa using hr, by simp, by simp⟩

/-- C10, witness at a concrete input. -/
theorem c10_witness :
    (log envFail (setFilename initState "a.csv").state [] []).state.filename
      = "/docs/a.csv" ∧
    Signal.filenameChanged ∈
      (log envFail (setFilename initState "a.csv").state [] []).signals ∧
    (log envFail (setFilename initState "a.csv").state [] []).fs = [] ∧
    (log envFail (setFilename initState "a.csv").state [] []).state.fileNeedsReopen
      = true := by
  have h := c10_theorem envFail (setFilename initState "a.csv").state [] []
    rfl (by decide) (by decide) (by decide)
  have h2 := h.2.2.2 (by decide)
  exact ⟨h.1.trans (by decide), h.2.1, h2.1, h2.2.1⟩

/-! ### Claim C7 -/

/-- C7: in the built data line, a `QVariant::Double` value renders as a
fixed-point string with exactly `precision` fractional digits (3.14159 at
precision 2 renders as "3.14"), a non-numeric value renders as its text
form, values are comma-space separated after the timestamp, and with
`logTime = true` and `logMillis = false` the timestamp prefix is the
19-character `yyyy-MM-dd HH:mm:ss` rendering with no `.zzz` milliseconds
suffix (the millis rendering is exactly that prefix plus `"." ++ pad3`). -/
theorem c7_theorem (q : ℚ) (p : Nat) (t : String) (s : LoggerState)
    (now : DateTime) (data : List Value)
    (hp : p ≠ 0) (hlt : s.logTime = true) (hlm : s.logMillis = false) :
    (∃ ip fp : String, renderValue p (Value.double q) = ip ++ "." ++ fp ∧
      fp.length = p ∧ ∀ c ∈ fp.data, c.isDigit = true) ∧
    renderValue p (Value.text t) = t ∧
    renderValue 2 (Value.double (3.14159 : ℚ)) = "3.14" ∧
    (buildLogLine s now data).1 =
      commaSpaceJoin (formatDateTime now false :: data.map (renderValue s.precision)) ∧
    (formatDateTime now false).length = 19 ∧
    '.' ∉ (formatDateTime now false).data ∧
    formatDateTime now true = formatDateTime now false ++ "." ++ pad3 now.millis := by
  have hpi : renderValue 2 (Value.double (3.14159 : ℚ)) = "3.14" := by
    have hnum : (3.14159 : ℚ).num = 314159 := by norm_num
    have hden : (3.14159 : ℚ).den = 100000 := by norm_num
    simp only [renderValue, formatFixed, hnum, hden]
    decide
  refine ⟨formatFixed_decomp q p hp, rfl, hpi, ?_,
    formatDateTime_false_length now, formatDateTime_no_dot now,
    formatDateTime_millis_suffix now⟩
  have h := buildLogLine_fst s now data
  rw [hlt, hlm] at h
  simpa using h

/-- C7, witness at a concrete input. -/
theorem c7_witness :
    (∃ ip fp : String, renderValue 2 (Value.double (3.14159 : ℚ)) = ip ++ "." ++ fp ∧
      fp.length = 2 ∧ ∀ c ∈ fp.data, c.isDigit = true) ∧
    (buildLogLine { initState with logMillis := false } dt0
        [Value.double (3.14159 : ℚ), Value.text "hi"]).1 =
      commaSpaceJoin (formatDateTime dt0 false ::
        [Value.double (3.14159 : ℚ), Value.text "hi"].map (renderValue 2)) := by
  have h := c7_theorem (3.14159 : ℚ) 2 "hi" { initState with logMillis := false }
    dt0 [Value.double (3.14159 : ℚ), Value.text "hi"] (by decide) rfl rfl
  exact ⟨h.1, h.2.2.2.1⟩

/-! ### Claim C8 -/

/-- C8: when the row length differs from the header length, `buildLogLine`
emits exactly one warning-class diagnostic but still builds the line from
exactly the caller-supplied values, and `log` still appends the line to the
open file (or emits it to the console in console mode) while surfacing that
warning; no row is dropped for the mismatch. -/
theorem c8_theorem (env : Env) (s : LoggerState) (fs : FS)
    (now : DateTime) (data : List Value)
    (hlen : data.length ≠ s.header.length) :
    (buildLogLine s now data).2 = [Diag.warning lengthMismatchMsg] ∧
    (buildLogLine s now data).1 =
      commaSpaceJoin ((if s.logTime then [formatDateTime now s.logMillis] else []) ++
        data.map (renderValue s.precision)) ∧
    (env.enabled = true → s.toConsole = false → s.fileNeedsReopen = false →
      s.fileOpen = true →
      (log env s fs data).fs =
        fsAppendLine fs s.openedFile (buildLogLine s env.now data).1 ∧
      Diag.warning lengthMismatchMsg ∈ (log env s fs data).diags) ∧
    (env.enabled = true → s.toConsole = true →
      (log env s fs data).console = [(buildLogLine s env.now data).1] ∧
      Diag.warning lengthMismatchMsg ∈ (log env s fs data).diags) := by
  have hw : ∀ d : DateTime, (buildLogLine s d data).2 = [Diag.warning lengthMismatchMsg] := by
    intro d
    simp [buildLogLine, hlen]
  refine ⟨hw now, buildLogLine_fst s now data, ?_, ?_⟩
  · intro he hc hr ho
    rw [log_steady env s fs data he hc hr ho]
    exact ⟨rfl, by simp [hw env.now]⟩
  · intro he hc
    constructor
    · simp [log, he, hc]
    · simp [log, he, hc, hw env.now]

/-- C8, witness at a concrete input (row shorter than the header). -/
theorem c8_witness :
    (buildLogLine writingState dt0 []).2 = [Diag.warning lengthMismatchMsg] ∧
    (log envOk writingState [] []).fs =
      fsAppendLine [] writingState.openedFile (buildLogLine writingState envOk.now []).1 ∧
    Diag.warning lengthMismatchMsg ∈ (log envOk writingState [] []).diags := by
  have h := c8_theorem envOk writingState [] dt0 [] (by decide)
  have h2 := h.2.2.1 rfl rfl rfl rfl
  exact ⟨h.1, h2.1, h2.2⟩

/-! ### Claim C2 -/

/-- The function `logLines` does not depend on the fields `openedState` changes. -/
theorem logLines_openedState (wl : String) (s : LoggerState)
    (calls : List (DateTime × List Value)) :
    logLines (openedState wl s) calls = logLines s calls := by
  induction calls with
  | nil => rfl
  | cons c rest ih =>
      simp only [logLines, List.map_cons] at ih ⊢
      rw [buildLogLine_openedState, ih]

/-- C2: for every sequence of N ≥ 1 enabled file-mode `log` calls with
succeeding opens against the resolved path: the run produces one data line
per call, in call order; if the file was absent or empty at the open
(position zero in append mode) the resulting file is exactly one header
line followed by the N data lines; if the file was non-empty at the open,
its prior content is preserved and no additional header is written, only
the N data lines are appended. -/
theorem c2_theorem (wl : String) (ok : String → Bool) (s : LoggerState)
    (fs : FS) (calls : List (DateTime × List Value))
    (hc : s.toConsole = false) (hr : s.fileNeedsReopen = true)
    (hok : ok (resolvedName wl s) = true) (hne : calls ≠ []) :
    (logLines s calls).length = calls.length ∧
    ((fsLookup fs (resolvedName wl s)).getD [] = [] →
      fsLookup (runLogs true wl ok calls s fs).2 (resolvedName wl s) =
        some (buildHeaderString s :: logLines s calls)) ∧
    (∀ l ls, fsLookup fs (resolvedName wl s) = some (l :: ls) →
      fsLookup (runLogs true wl ok calls s fs).2 (resolvedName wl s) =
        some ((l :: ls) ++ logLines s calls)) := by
  obtain ⟨c, rest, rfl⟩ := List.exists_cons_of_ne_nil hne
  have hstep : runLogs true wl ok (c :: rest) s fs =
      runLogs true wl ok rest (openedState wl s)
        (fsAppendLine
          (if fsLookup (fsEnsure fs (resolvedName wl s)) (resolvedName wl s) = some [] then
            fsAppendLine (fsEnsure fs (resolvedName wl s)) (resolvedName wl s)
              (buildHeaderString (openedState wl s))
          else fsEnsure fs (resolvedName wl s))
          (resolvedName wl s) (buildLogLine (openedState wl s) c.1 c.2).1) := by
    simp only [runLogs]
    rw [log_reopen_ok ⟨true, c.1, wl, ok⟩ s fs c.2 rfl hc hr hok]
  have hsteady := runLogs_steady wl ok rest (openedState wl s)
  refine ⟨by simp [logLines], ?_, ?_⟩
  · intro hempty
    have hcondT : fsLookup (fsEnsure fs (resolvedName wl s)) (resolvedName wl s) =
        some [] := by
      rw [fsLookup_fsEnsure_self, hempty]
    rw [hstep, if_pos hcondT, hsteady _ hc rfl rfl]
    dsimp only
    rw [show (openedState wl s).openedFile = resolvedName wl s from rfl]
    have l1 : fsLookup
        (fsAppendLine (fsEnsure fs (resolvedName wl s)) (resolvedName wl s)
          (buildHeaderString (openedState wl s))) (resolvedName wl s) =
        some [buildHeaderString (openedState wl s)] := by
      rw [fsLookup_fsAppendLine_self, hcondT]
      rfl
    have l2 : fsLookup
        (fsAppendLine
          (fsAppendLine (fsEnsure fs (resolvedName wl s)) (resolvedName wl s)
            (buildHeaderString (openedState wl s)))
          (resolvedName wl s) (buildLogLine (openedState wl s) c.1 c.2).1)
        (resolvedName wl s) =
        some [buildHeaderString (openedState wl s),
          (buildLogLine (openedState wl s) c.1 c.2).1] := by
      rw [fsLookup_fsAppendLine_self, l1]
      rfl
    have l3 := fsAppendAll_lookup (logLines (openedState wl s) rest) l2
    rw [l3, logLines_openedState, buildHeaderString_openedState,
      buildLogLine_openedState]
    simp [logLines]
  · intro l ls hfull
    have hens : fsEnsure fs (resolvedName wl s) = fs := fsEnsure_of_some hfull
    have hcondF : ¬ (fsLookup (fsEnsure fs (resolvedName wl s)) (resolvedName wl s) =
        some []) := by
      rw [hens, hfull]
      simp
    rw [hstep, if_neg hcondF, hens, hsteady _ hc rfl rfl]
    dsimp only
    rw [show (openedState wl s).openedFile = resolvedName wl s from rfl]
    have l2 : fsLookup
        (fsAppendLine fs (resolvedName wl s) (buildLogLine (openedState wl s) c.1 c.2).1)
        (resolvedName wl s) =
        some ((l :: ls) ++ [(buildLogLine (openedState wl s) c.1 c.2).1]) := by
      rw [fsLookup_fsAppendLine_self, hfull]
      rfl
    have l3 := fsAppendAll_lookup (logLines (openedState wl s) rest) l2
    rw [l3, logLines_openedState, buildLogLine_openedState]
    simp [logLines]

/-- C2, witness at a concrete input: two calls against a fresh file. -/
theorem c2_witness :
    fsLookup (runLogs true "/docs" (fun _ => true)
        [(dt0, [Value.text "x"]), (⟨2026, 1, 2, 0, 0, 0, 0⟩, [Value.text "y"])]
        { initState with filename := "/tmp/a.csv", fileNeedsReopen := true } []).2
        "/tmp/a.csv" =
      some ["timestamp", "2026-01-01 12:30:45.500, x", "2026-01-02 00:00:00.000, y"] := by
  have h := c2_theorem "/docs" (fun _ => true)
    { initState with filename := "/tmp/a.csv", fileNeedsReopen := true } []
    [(dt0, [Value.text "x"]), (⟨2026, 1, 2, 0, 0, 0, 0⟩, [Value.text "y"])]
    rfl rfl (by decide) (by decide)
  have h2 := h.2.1 (by decide)
  exact h2.trans (by decide)

end CSVLogger
